import Mathlib

/-!
Shallow embedding of the earningsfeed-rust client library core:
the error taxonomy (src/error.rs), client configuration (src/config.rs),
query-parameter objects and builders (src/models/params.rs), the paginated
response wrapper (src/models/common.rs), the transport operation
EarningsFeed::get (src/client.rs), and the cursor-pagination iterators
FilingsResource::iter (src/resources/filings.rs) and
CompaniesResource::iter_search (src/resources/companies.rs).

HTTP timestamps (chrono DateTime) are modelled as their wire strings;
std::time::Duration is modelled as a Nat; reqwest responses are modelled
by an abstract record carrying the status, the headers, and the outcome
of the two body decodings the code may perform (the typed success decode
and the serde_json::Value decode of an error body, projected to the two
fields the code reads).
-/

namespace EarningsFeed

/-- Error taxonomy from src/error.rs. `Http` is the variant produced by
`#[from] reqwest::Error` (transport and reqwest decode failures); `Json`
is the variant produced by `#[from] serde_json::Error`. Durations and
underlying causes are modelled as strings/naturals. -/
inductive Error where
  | Authentication : Error
  | RateLimit (reset_at : Option Nat) : Error
  | NotFound (path : String) : Error
  | Validation (message : String) : Error
  | Api (status : Nat) (message : String) (code : Option String) : Error
  | Timeout (duration : Nat) : Error
  | Http (cause : String) : Error
  | Json (cause : String) : Error
  | Config (message : String) : Error
deriving DecidableEq, Repr

/-- Paginated API response wrapper from src/models/common.rs. -/
structure PaginatedResponse (T : Type) where
  items : List T
  next_cursor : Option String
  has_more : Bool
deriving DecidableEq, Repr

/-- Filing status filter from src/models/params.rs, with its lowercase
serde serialization. -/
inductive FilingStatus where
  | All : FilingStatus
  | Provisional : FilingStatus
  | Final : FilingStatus
deriving DecidableEq, Repr

/-- Lowercase wire form of FilingStatus (serde rename_all = lowercase). -/
def FilingStatus.serialize : FilingStatus → String
  | .All => "all"
  | .Provisional => "provisional"
  | .Final => "final"

/-- Parameters for listing filings, src/models/params.rs (ListFilingsParams).
All fields optional; field order is the struct declaration order. -/
structure ListFilingsParams where
  forms : Option String := none
  ticker : Option String := none
  cik : Option Nat := none
  status : Option FilingStatus := none
  start_date : Option String := none
  end_date : Option String := none
  q : Option String := none
  limit : Option Nat := none
  cursor : Option String := none
deriving DecidableEq, Repr

/-- Builder for ListFilingsParams (src/models/params.rs). -/
structure ListFilingsParamsBuilder where
  params : ListFilingsParams := {}
deriving Repr

/-- ListFilingsParams::builder(). -/
def ListFilingsParams.builder : ListFilingsParamsBuilder := {}

/-- Builder method forms: joins the given form types with commas
(`forms_str.join(",")`). -/
def ListFilingsParamsBuilder.forms (b : ListFilingsParamsBuilder)
    (fs : List String) : ListFilingsParamsBuilder :=
  { b with params := { b.params with forms := some (String.intercalate "," fs) } }

/-- Builder method ticker. -/
def ListFilingsParamsBuilder.ticker (b : ListFilingsParamsBuilder)
    (t : String) : ListFilingsParamsBuilder :=
  { b with params := { b.params with ticker := some t } }

/-- Builder method cik. -/
def ListFilingsParamsBuilder.cik (b : ListFilingsParamsBuilder)
    (c : Nat) : ListFilingsParamsBuilder :=
  { b with params := { b.params with cik := some c } }

/-- Builder method status. -/
def ListFilingsParamsBuilder.status (b : ListFilingsParamsBuilder)
    (s : FilingStatus) : ListFilingsParamsBuilder :=
  { b with params := { b.params with status := some s } }

/-- Builder method start_date. -/
def ListFilingsParamsBuilder.start_date (b : ListFilingsParamsBuilder)
    (d : String) : ListFilingsParamsBuilder :=
  { b with params := { b.params with start_date := some d } }

/-- Builder method end_date. -/
def ListFilingsParamsBuilder.end_date (b : ListFilingsParamsBuilder)
    (d : String) : ListFilingsParamsBuilder :=
  { b with params := { b.params with end_date := some d } }

/-- Builder method q. -/
def ListFilingsParamsBuilder.q (b : ListFilingsParamsBuilder)
    (query : String) : ListFilingsParamsBuilder :=
  { b with params := { b.params with q := some query } }

/-- Builder method limit. -/
def ListFilingsParamsBuilder.limit (b : ListFilingsParamsBuilder)
    (l : Nat) : ListFilingsParamsBuilder :=
  { b with params := { b.params with limit := some l } }

/-- Builder method cursor. -/
def ListFilingsParamsBuilder.cursor (b : ListFilingsParamsBuilder)
    (c : String) : ListFilingsParamsBuilder :=
  { b with params := { b.params with cursor := some c } }

/-- Builder build: returns the accumulated params. -/
def ListFilingsParamsBuilder.build (b : ListFilingsParamsBuilder) :
    ListFilingsParams := b.params

/-- Transaction direction filter from src/models/params.rs. -/
inductive TransactionDirection where
  | Buy : TransactionDirection
  | Sell : TransactionDirection
deriving DecidableEq, Repr

/-- Parameters for listing insider transactions (ListInsiderParams,
src/models/params.rs). -/
structure ListInsiderParams where
  ticker : Option String := none
  cik : Option Nat := none
  person_cik : Option Nat := none
  direction : Option TransactionDirection := none
  codes : Option String := none
  derivative : Option Bool := none
  min_value : Option Nat := none
  start_date : Option String := none
  end_date : Option String := none
  limit : Option Nat := none
  cursor : Option String := none
deriving DecidableEq, Repr

/-- Builder for ListInsiderParams. -/
structure ListInsiderParamsBuilder where
  params : ListInsiderParams := {}
deriving Repr

/-- ListInsiderParams::builder(). -/
def ListInsiderParams.builder : ListInsiderParamsBuilder := {}

/-- Builder method codes: joins the given transaction codes with commas
(`codes_str.join(",")`). -/
def ListInsiderParamsBuilder.codes (b : ListInsiderParamsBuilder)
    (cs : List String) : ListInsiderParamsBuilder :=
  { b with params := { b.params with codes := some (String.intercalate "," cs) } }

/-- Builder build for ListInsiderParams. -/
def ListInsiderParamsBuilder.build (b : ListInsiderParamsBuilder) :
    ListInsiderParams := b.params

/-- Parameters for searching companies (SearchCompaniesParams,
src/models/params.rs). -/
structure SearchCompaniesParams where
  q : Option String := none
  ticker : Option String := none
  sic_code : Option Nat := none
  state : Option String := none
  limit : Option Nat := none
  cursor : Option String := none
deriving DecidableEq, Repr

/-- One query entry for a present optional field; absent fields contribute
nothing (serde skip_serializing_if = Option.is_none). -/
def optEntry (key : String) : Option String → List (String × String)
  | some v => [(key, v)]
  | none => []

/-- Query-string serialization of ListFilingsParams: each set field emits
one key=value pair under its camelCase wire name, in struct field order;
absent fields are omitted entirely. -/
def ListFilingsParams.toQuery (p : ListFilingsParams) : List (String × String) :=
  optEntry "forms" p.forms ++
  optEntry "ticker" p.ticker ++
  optEntry "cik" (p.cik.map toString) ++
  optEntry "status" (p.status.map FilingStatus.serialize) ++
  optEntry "startDate" p.start_date ++
  optEntry "endDate" p.end_date ++
  optEntry "q" p.q ++
  optEntry "limit" (p.limit.map toString) ++
  optEntry "cursor" p.cursor

/-- Client configuration from src/config.rs: api_key required, base_url
and timeout optional (timeout modelled as Nat). -/
structure ClientConfig where
  api_key : String
  base_url : Option String
  timeout : Option Nat
deriving DecidableEq, Repr

/-- Builder for ClientConfig (src/config.rs). -/
structure ClientConfigBuilder where
  api_key : Option String := none
  base_url : Option String := none
  timeout : Option Nat := none
deriving DecidableEq, Repr

/-- Builder method api_key. -/
def ClientConfigBuilder.set_api_key (b : ClientConfigBuilder)
    (k : String) : ClientConfigBuilder :=
  { b with api_key := some k }

/-- ClientConfigBuilder::build: Config error when the API key is missing
or empty, otherwise the configuration with the fields as accumulated. -/
def ClientConfigBuilder.build (b : ClientConfigBuilder) :
    Except Error ClientConfig :=
  match b.api_key with
  | none => Except.error (Error.Config "API key is required")
  | some api_key =>
      if api_key.isEmpty then
        Except.error (Error.Config "API key cannot be empty")
      else
        Except.ok { api_key := api_key, base_url := b.base_url, timeout := b.timeout }

/-- The two fields of an error-response body that EarningsFeed::get reads
from the decoded serde_json::Value: `body["error"].as_str()` and
`body["code"].as_str()`. A field is `none` when absent or not a string. -/
structure ErrorBody where
  error : Option String := none
  code : Option String := none
deriving DecidableEq, Repr

/-- Rust `str::parse::<u64>()`: an optional leading plus sign followed by
one or more ASCII digits, with the value below 2^64; anything else fails. -/
def parseU64 (s : String) : Option Nat :=
  let digits := match s.data with
    | List.cons c rest => if c = '+' then rest else s.data
    | List.nil => List.nil
  if digits.isEmpty then none
  else if digits.all Char.isDigit then
    let n := digits.foldl (fun acc c => acc * 10 + (c.toNat - 48)) 0
    if n < 2 ^ 64 then some n else none
  else none

/-- ASCII lowercasing of one character (HTTP header names are ASCII). -/
def asciiLower (c : Char) : Char :=
  if 'A' ≤ c ∧ c ≤ 'Z' then Char.ofNat (c.toNat + 32) else c

/-- Case-insensitive equality of HTTP header names. -/
def headerNameEq (a b : String) : Bool :=
  a.data.map asciiLower = b.data.map asciiLower

/-- reqwest HeaderMap lookup: header names are matched case-insensitively;
the first matching header's value is returned. -/
def headerGet (headers : List (String × String)) (name : String) : Option String :=
  (headers.find? (fun h => headerNameEq h.1 name)).map (fun h => h.2)

/-- An HTTP response as EarningsFeed::get observes it: the status code
(u16), the headers, and the outcomes of the two body decodings the code
may perform. `decodeSuccess` is the `response.json::<T>()` result used on
the 2xx path (a reqwest Result, its error converted by `?` into
Error::Http); `decodeValue` is the `response.json::<serde_json::Value>()`
result used on the 400/other paths, projected to the two fields read,
with `none` for a parse failure (the code replaces it by
`unwrap_or_default()`, i.e. Value::Null, whose projections are both none). -/
structure HttpResponse (T : Type) where
  status : Nat
  headers : List (String × String) := []
  decodeSuccess : Except String T
  decodeValue : Option ErrorBody := none

/-- The outcome of `request.send().await`: a transport failure (connection
or timeout, converted by `?` into Error::Http) or a response. -/
inductive SendOutcome (T : Type) where
  | sendErr (cause : String) : SendOutcome T
  | resp (r : HttpResponse T) : SendOutcome T

/-- EarningsFeed::get (src/client.rs lines 215-265): classify the response
status; on 2xx decode the success body (decode failure propagates through
`?` as Error::Http, since reqwest Response::json returns reqwest::Error);
401 yields Authentication; 404 yields NotFound with the requested path;
429 yields RateLimit with the X-RateLimit-Reset header parsed as u64; 400
yields Validation with the body's error field or "Invalid request"; any
other status yields Api with the status, the body's error field or
"Unknown error", and the body's code field. -/
def get {T : Type} (path : String) (outcome : SendOutcome T) : Except Error T :=
  match outcome with
  | .sendErr cause => Except.error (Error.Http cause)
  | .resp response =>
    if 200 ≤ response.status ∧ response.status ≤ 299 then
      match response.decodeSuccess with
      | .ok body => Except.ok body
      | .error cause => Except.error (Error.Http cause)
    else if response.status = 401 then
      Except.error Error.Authentication
    else if response.status = 404 then
      Except.error (Error.NotFound path)
    else if response.status = 429 then
      let reset_at := (headerGet response.headers "X-RateLimit-Reset").bind parseU64
      Except.error (Error.RateLimit reset_at)
    else if response.status = 400 then
      let body := response.decodeValue.getD {}
      Except.error (Error.Validation (body.error.getD "Invalid request"))
    else
      let body := response.decodeValue.getD {}
      Except.error (Error.Api response.status (body.error.getD "Unknown error") body.code)

/-- Entity type classification from src/models/filing.rs. -/
inductive EntityClass where
  | Company : EntityClass
  | Person : EntityClass
deriving DecidableEq, Repr

/-- Company details attached to a filing (src/models/filing.rs). -/
structure FilingCompany where
  cik : Nat
  name : String
  state_of_incorporation : Option String := none
  state_of_incorporation_description : Option String := none
  fiscal_year_end : Option String := none
deriving DecidableEq, Repr

/-- SEC filing from the filings feed (src/models/filing.rs); chrono
timestamps are modelled as their wire strings. -/
structure Filing where
  accession_number : String
  accession_no_dashes : Option String := none
  cik : Nat
  company_name : Option String := none
  form_type : String
  filed_at : String
  accept_ts : Option String := none
  provisional : Bool
  feed_day : Option String := none
  size_bytes : Nat
  url : String
  title : String
  status : String
  updated_at : String
  primary_ticker : Option String := none
  primary_exchange : Option String := none
  company : Option FilingCompany := none
  sorted_at : String
  logo_url : Option String := none
  entity_class : Option EntityClass := none
deriving DecidableEq, Repr

/-- Company search result (src/models/company.rs). -/
structure CompanySearchResult where
  cik : Nat
  name : String
  ticker : Option String := none
  exchange : Option String := none
  entity_type : Option String := none
  category : Option String := none
  sic_code : Option Nat := none
  sic_description : Option String := none
  logo_url : Option String := none
deriving DecidableEq, Repr

/-- The observable outcome of one turn of a pagination loop: surface an
error and end, emit the page's items and end, or emit the page's items
and continue with updated parameters. -/
inductive IterOut (P T : Type) where
  | err (e : Error) : IterOut P T
  | done (items : List T) : IterOut P T
  | more (items : List T) (next : P) : IterOut P T
deriving DecidableEq, Repr

/-- One iteration of the loop body of FilingsResource::iter
(src/resources/filings.rs lines 113-136). `listFn` stands for
`self.list(&current_params)`. On error the try_stream yields the error
and the stream ends; otherwise the page's items are yielded in order,
then the loop breaks if has_more is false, breaks if next_cursor is
absent, and otherwise continues with the cursor field updated. -/
def FilingsResource.iterStep
    (listFn : ListFilingsParams → Except Error (PaginatedResponse Filing))
    (p : ListFilingsParams) : IterOut ListFilingsParams Filing :=
  match listFn p with
  | .error e => .err e
  | .ok response =>
      if !response.has_more then .done response.items
      else
        match response.next_cursor with
        | some cursor => .more response.items { p with cursor := some cursor }
        | none => .done response.items

/-- Fuel-bounded unfolding of FilingsResource::iter, producing the stream
of emitted values when the loop finishes within the fuel (`none` means
the fuel ran out before the loop ended). -/
def FilingsResource.iterRun
    (listFn : ListFilingsParams → Except Error (PaginatedResponse Filing))
    (p : ListFilingsParams) : Nat → Option (List (Except Error Filing))
  | 0 => none
  | Nat.succ fuel =>
    match FilingsResource.iterStep listFn p with
    | .err e => some [Except.error e]
    | .done items => some (items.map Except.ok)
    | .more items next =>
        (FilingsResource.iterRun listFn next fuel).map
          (fun rest => items.map Except.ok ++ rest)

/-- Fuel-bounded trace of the parameter objects FilingsResource::iter
passes to `list`, in request order (a prefix when the fuel runs out). -/
def FilingsResource.iterTrace
    (listFn : ListFilingsParams → Except Error (PaginatedResponse Filing))
    (p : ListFilingsParams) : Nat → List ListFilingsParams
  | 0 => []
  | Nat.succ fuel =>
    List.cons p
      (match FilingsResource.iterStep listFn p with
       | .more _ next => FilingsResource.iterTrace listFn next fuel
       | _ => [])

/-- One iteration of the loop body of CompaniesResource::iter_search
(src/resources/companies.rs lines 49-75); identical loop shape over
SearchCompaniesParams, with `searchFn` standing for
`self.search(&current_params)`. -/
def CompaniesResource.iterSearchStep
    (searchFn : SearchCompaniesParams → Except Error (PaginatedResponse CompanySearchResult))
    (p : SearchCompaniesParams) : IterOut SearchCompaniesParams CompanySearchResult :=
  match searchFn p with
  | .error e => .err e
  | .ok response =>
      if !response.has_more then .done response.items
      else
        match response.next_cursor with
        | some cursor => .more response.items { p with cursor := some cursor }
        | none => .done response.items

/-- Fuel-bounded unfolding of CompaniesResource::iter_search. -/
def CompaniesResource.iterSearchRun
    (searchFn : SearchCompaniesParams → Except Error (PaginatedResponse CompanySearchResult))
    (p : SearchCompaniesParams) : Nat → Option (List (Except Error CompanySearchResult))
  | 0 => none
  | Nat.succ fuel =>
    match CompaniesResource.iterSearchStep searchFn p with
    | .err e => some [Except.error e]
    | .done items => some (items.map Except.ok)
    | .more items next =>
        (CompaniesResource.iterSearchRun searchFn next fuel).map
          (fun rest => items.map Except.ok ++ rest)

/-- Fuel-bounded trace of the parameter objects CompaniesResource::iter_search
passes to `search`, in request order. -/
def CompaniesResource.iterSearchTrace
    (searchFn : SearchCompaniesParams → Except Error (PaginatedResponse CompanySearchResult))
    (p : SearchCompaniesParams) : Nat → List SearchCompaniesParams
  | 0 => []
  | Nat.succ fuel =>
    List.cons p
      (match CompaniesResource.iterSearchStep searchFn p with
       | .more _ next => CompaniesResource.iterSearchTrace searchFn next fuel
       | _ => [])

/-- The single filing of page 1 of the two-page mocked sequence
(src/resources/filings.rs test_iter_filings_multiple_pages). -/
def filingPage1 : Filing :=
  { accession_number := "0000950170-24-000001"
    cik := 320193
    form_type := "10-K"
    filed_at := "2024-01-15T16:30:00Z"
    provisional := false
    size_bytes := 12345
    url := "https://www.sec.gov/..."
    title := "Form 10-K Page 1"
    status := "final"
    updated_at := "2024-01-15T17:00:00Z"
    sorted_at := "2024-01-15T16:30:00Z" }

/-- The single filing of page 2 of the two-page mocked sequence. -/
def filingPage2 : Filing :=
  { accession_number := "0000950170-24-000002"
    cik := 320193
    form_type := "10-Q"
    filed_at := "2024-01-14T16:30:00Z"
    provisional := false
    size_bytes := 12345
    url := "https://www.sec.gov/..."
    title := "Form 10-Q Page 2"
    status := "final"
    updated_at := "2024-01-14T17:00:00Z"
    sorted_at := "2024-01-14T16:30:00Z" }

/-- The two-page mocked server sequence: a request without a cursor gets
page 1 (one item, hasMore true, nextCursor "cursor_page_2"); a request
whose cursor is "cursor_page_2" gets page 2 (one item, hasMore false, no
cursor); any other cursor is answered with an error, so a successful run
certifies that the second request carried cursor "cursor_page_2". -/
def twoPageServer (p : ListFilingsParams) :
    Except Error (PaginatedResponse Filing) :=
  match p.cursor with
  | none =>
      Except.ok { items := [filingPage1], next_cursor := some "cursor_page_2",
                  has_more := true }
  | some c =>
      if c = "cursor_page_2" then
        Except.ok { items := [filingPage2], next_cursor := none, has_more := false }
      else
        Except.error (Error.Api 500 "unexpected cursor" none)

/-- Discriminator: is this error the Json (serde_json serialization)
variant? -/
def Error.isJson : Error → Bool
  | .Json _ => true
  | _ => false

/-- Discriminator on call results: did the call fail with the Json
(serialization) error kind? -/
def resultIsJsonError {T : Type} : Except Error T → Bool
  | .error e => e.isJson
  | .ok _ => false

/-- A concrete 2xx response whose body fails to decode as the expected
structure (the typed decode fails with a reqwest decode error). -/
def badDecodeResp : HttpResponse Nat :=
  { status := 200, decodeSuccess := Except.error "error decoding response body" }

/-- `q` agrees with `p` on every ListFilingsParams field except possibly
the cursor. -/
def sameExceptCursorFilings (p q : ListFilingsParams) : Prop :=
  q.forms = p.forms ∧ q.ticker = p.ticker ∧ q.cik = p.cik ∧
  q.status = p.status ∧ q.start_date = p.start_date ∧ q.end_date = p.end_date ∧
  q.q = p.q ∧ q.limit = p.limit

/-- `q` agrees with `p` on every SearchCompaniesParams field except
possibly the cursor. -/
def sameExceptCursorCompanies (p q : SearchCompaniesParams) : Prop :=
  q.q = p.q ∧ q.ticker = p.ticker ∧ q.sic_code = p.sic_code ∧
  q.state = p.state ∧ q.limit = p.limit

/-- Relation between consecutive page requests of FilingsResource::iter:
the earlier request succeeded with a page that has more results and a
next cursor, and the later request is the earlier one with only the
cursor field replaced by that next cursor. -/
def cursorStepFilings
    (listFn : ListFilingsParams → Except Error (PaginatedResponse Filing))
    (p q : ListFilingsParams) : Prop :=
  ∃ page c, listFn p = Except.ok page ∧ page.has_more = true ∧
    page.next_cursor = some c ∧ q = { p with cursor := some c }

/-- Relation between consecutive page requests of
CompaniesResource::iter_search, as for filings. -/
def cursorStepCompanies
    (searchFn : SearchCompaniesParams → Except Error (PaginatedResponse CompanySearchResult))
    (p q : SearchCompaniesParams) : Prop :=
  ∃ page c, searchFn p = Except.ok page ∧ page.has_more = true ∧
    page.next_cursor = some c ∧ q = { p with cursor := some c }

/-- Membership in the query contribution of one optional field. -/
theorem mem_optEntry {k0 k v : String} {o : Option String} :
    (k, v) ∈ optEntry k0 o ↔ k = k0 ∧ o = some v := by
  cases o <;> simp [optEntry, Prod.ext_iff, eq_comm]

/-- Inversion of a continuing filings iteration step: it came from a
successful page with has_more true and a present next cursor, and the
next parameters are the old ones with only the cursor replaced. -/
theorem iterStep_more_inv
    (listFn : ListFilingsParams → Except Error (PaginatedResponse Filing))
    (p : ListFilingsParams) (items : List Filing) (next : ListFilingsParams) :
    FilingsResource.iterStep listFn p = IterOut.more items next →
    ∃ page c, listFn p = Except.ok page ∧ page.items = items ∧
      page.has_more = true ∧ page.next_cursor = some c ∧
      next = { p with cursor := some c } := by
  intro h
  unfold FilingsResource.iterStep at h
  cases hl : listFn p with
  | error e => rw [hl] at h; simp at h
  | ok page =>
    rw [hl] at h
    cases hm : page.has_more with
    | false => simp [hm] at h
    | true =>
      cases hc : page.next_cursor with
      | none => simp [hm, hc] at h
      | some c =>
        simp [hm, hc] at h
        exact ⟨page, c, rfl, h.1, hm, hc, h.2.symm⟩

/-- Inversion of a continuing company-search iteration step. -/
theorem iterSearchStep_more_inv
    (searchFn : SearchCompaniesParams → Except Error (PaginatedResponse CompanySearchResult))
    (p : SearchCompaniesParams) (items : List CompanySearchResult)
    (next : SearchCompaniesParams) :
    CompaniesResource.iterSearchStep searchFn p = IterOut.more items next →
    ∃ page c, searchFn p = Except.ok page ∧ page.items = items ∧
      page.has_more = true ∧ page.next_cursor = some c ∧
      next = { p with cursor := some c } := by
  intro h
  unfold CompaniesResource.iterSearchStep at h
  cases hl : searchFn p with
  | error e => rw [hl] at h; simp at h
  | ok page =>
    rw [hl] at h
    cases hm : page.has_more with
    | false => simp [hm] at h
    | true =>
      cases hc : page.next_cursor with
      | none => simp [hm, hc] at h
      | some c =>
        simp [hm, hc] at h
        exact ⟨page, c, rfl, h.1, hm, hc, h.2.symm⟩

/-- Agreement off the cursor field composes. -/
theorem sameExceptCursorFilings_comp {p q r : ListFilingsParams} :
    sameExceptCursorFilings p q → sameExceptCursorFilings q r →
    sameExceptCursorFilings p r := by
  rintro ⟨a1, a2, a3, a4, a5, a6, a7, a8⟩ ⟨b1, b2, b3, b4, b5, b6, b7, b8⟩
  exact ⟨b1.trans a1, b2.trans a2, b3.trans a3, b4.trans a4, b5.trans a5,
    b6.trans a6, b7.trans a7, b8.trans a8⟩

/-- Agreement off the cursor field composes (company search). -/
theorem sameExceptCursorCompanies_comp {p q r : SearchCompaniesParams} :
    sameExceptCursorCompanies p q → sameExceptCursorCompanies q r →
    sameExceptCursorCompanies p r := by
  rintro ⟨a1, a2, a3, a4, a5⟩ ⟨b1, b2, b3, b4, b5⟩
  exact ⟨b1.trans a1, b2.trans a2, b3.trans a3, b4.trans a4, b5.trans a5⟩

/-- Consecutive requests in a filings iteration trace are related by a
successful page's next cursor. -/
theorem iterTrace_chain
    (listFn : ListFilingsParams → Except Error (PaginatedResponse Filing)) :
    ∀ (fuel : Nat) (p : ListFilingsParams),
      List.Chain' (cursorStepFilings listFn)
        (FilingsResource.iterTrace listFn p fuel) := by
  intro fuel
  induction fuel with
  | zero => intro p; simp [FilingsResource.iterTrace]
  | succ n ih =>
    intro p
    rw [FilingsResource.iterTrace]
    cases hs : FilingsResource.iterStep listFn p with
    | err e => simp
    | done items => simp
    | more items next =>
      rw [List.chain'_cons']
      refine ⟨?_, ih next⟩
      intro b hb
      cases n with
      | zero => simp [FilingsResource.iterTrace] at hb
      | succ m =>
        simp only [] at hb
        rw [FilingsResource.iterTrace] at hb
        simp at hb
        subst hb
        obtain ⟨page, c, h1, h2, h3, h4, h5⟩ :=
          iterStep_more_inv listFn p items next hs
        exact ⟨page, c, h1, h3, h4, h5⟩

/-- Consecutive requests in a company-search iteration trace are related
by a successful page's next cursor. -/
theorem iterSearchTrace_chain
    (searchFn : SearchCompaniesParams → Except Error (PaginatedResponse CompanySearchResult)) :
    ∀ (fuel : Nat) (p : SearchCompaniesParams),
      List.Chain' (cursorStepCompanies searchFn)
        (CompaniesResource.iterSearchTrace searchFn p fuel) := by
  intro fuel
  induction fuel with
  | zero => intro p; simp [CompaniesResource.iterSearchTrace]
  | succ n ih =>
    intro p
    rw [CompaniesResource.iterSearchTrace]
    cases hs : CompaniesResource.iterSearchStep searchFn p with
    | err e => simp
    | done items => simp
    | more items next =>
      rw [List.chain'_cons']
      refine ⟨?_, ih next⟩
      intro b hb
      cases n with
      | zero => simp [CompaniesResource.iterSearchTrace] at hb
      | succ m =>
        simp only [] at hb
        rw [CompaniesResource.iterSearchTrace] at hb
        simp at hb
        subst hb
        obtain ⟨page, c, h1, h2, h3, h4, h5⟩ :=
          iterSearchStep_more_inv searchFn p items next hs
        exact ⟨page, c, h1, h3, h4, h5⟩

/-- Every request in a filings iteration trace agrees with the starting
parameters on every field except the cursor. -/
theorem iterTrace_frame
    (listFn : ListFilingsParams → Except Error (PaginatedResponse Filing)) :
    ∀ (fuel : Nat) (p : ListFilingsParams),
      ∀ q ∈ FilingsResource.iterTrace listFn p fuel,
        sameExceptCursorFilings p q := by
  intro fuel
  induction fuel with
  | zero => intro p q hq; simp [FilingsResource.iterTrace] at hq
  | succ n ih =>
    intro p q hq
    rw [FilingsResource.iterTrace] at hq
    cases hs : FilingsResource.iterStep listFn p with
    | err e =>
      rw [hs] at hq; simp at hq; subst hq
      exact ⟨rfl, rfl, rfl, rfl, rfl, rfl, rfl, rfl⟩
    | done items =>
      rw [hs] at hq; simp at hq; subst hq
      exact ⟨rfl, rfl, rfl, rfl, rfl, rfl, rfl, rfl⟩
    | more items next =>
      rw [hs] at hq
      simp at hq
      rcases hq with rfl | hq
      · exact ⟨rfl, rfl, rfl, rfl, rfl, rfl, rfl, rfl⟩
      · obtain ⟨page, c, h1, h2, h3, h4, h5⟩ :=
          iterStep_more_inv listFn p items next hs
        refine sameExceptCursorFilings_comp ?_ (ih next q hq)
        subst h5
        exact ⟨rfl, rfl, rfl, rfl, rfl, rfl, rfl, rfl⟩

/-- Every request in a company-search iteration trace agrees with the
starting parameters on every field except the cursor. -/
theorem iterSearchTrace_frame
    (searchFn : SearchCompaniesParams → Except Error (PaginatedResponse CompanySearchResult)) :
    ∀ (fuel : Nat) (p : SearchCompaniesParams),
      ∀ q ∈ CompaniesResource.iterSearchTrace searchFn p fuel,
        sameExceptCursorCompanies p q := by
  intro fuel
  induction fuel with
  | zero => intro p q hq; simp [CompaniesResource.iterSearchTrace] at hq
  | succ n ih =>
    intro p q hq
    rw [CompaniesResource.iterSearchTrace] at hq
    cases hs : CompaniesResource.iterSearchStep searchFn p with
    | err e =>
      rw [hs] at hq; simp at hq; subst hq
      exact ⟨rfl, rfl, rfl, rfl, rfl⟩
    | done items =>
      rw [hs] at hq; simp at hq; subst hq
      exact ⟨rfl, rfl, rfl, rfl, rfl⟩
    | more items next =>
      rw [hs] at hq
      simp at hq
      rcases hq with rfl | hq
      · exact ⟨rfl, rfl, rfl, rfl, rfl⟩
      · obtain ⟨page, c, h1, h2, h3, h4, h5⟩ :=
          iterSearchStep_more_inv searchFn p items next hs
        refine sameExceptCursorCompanies_comp ?_ (ih next q hq)
        subst h5
        exact ⟨rfl, rfl, rfl, rfl, rfl⟩

/-- Claim C1: for every HTTP response with a non-2xx status code, the
transport operation `get` returns exactly the taxonomy error kind mapped
in the spec's table (401 Authentication, 404 NotFound with the requested
path, 400 Validation, 429 RateLimit, any other non-2xx Api with that
status code) and never a successful result; for every 2xx response whose
body decodes, it returns the decoded body and no error. -/
theorem get_status_taxonomy {T : Type} (path : String) (resp : HttpResponse T) :
    (resp.status = 401 →
      get path (SendOutcome.resp resp) = Except.error Error.Authentication) ∧
    (resp.status = 404 →
      get path (SendOutcome.resp resp) = Except.error (Error.NotFound path)) ∧
    (resp.status = 400 →
      ∃ m, get path (SendOutcome.resp resp) = Except.error (Error.Validation m)) ∧
    (resp.status = 429 →
      ∃ r, get path (SendOutcome.resp resp) = Except.error (Error.RateLimit r)) ∧
    (¬(200 ≤ resp.status ∧ resp.status ≤ 299) →
      resp.status ≠ 400 → resp.status ≠ 401 → resp.status ≠ 404 → resp.status ≠ 429 →
      ∃ m c, get path (SendOutcome.resp resp) =
        Except.error (Error.Api resp.status m c)) ∧
    (¬(200 ≤ resp.status ∧ resp.status ≤ 299) →
      ∀ t, get path (SendOutcome.resp resp) ≠ Except.ok t) ∧
    ((200 ≤ resp.status ∧ resp.status ≤ 299) →
      ∀ t, resp.decodeSuccess = Except.ok t →
        get path (SendOutcome.resp resp) = Except.ok t) := by
  refine ⟨?_, ?_, ?_, ?_, ?_, ?_, ?_⟩
  · intro h; simp [get, h]
  · intro h; simp [get, h]
  · intro h
    refine ⟨(resp.decodeValue.getD {}).error.getD "Invalid request", ?_⟩
    simp [get, h]
  · intro h
    refine ⟨(headerGet resp.headers "X-RateLimit-Reset").bind parseU64, ?_⟩
    simp [get, h]
  · intro h2 h400 h401 h404 h429
    refine ⟨(resp.decodeValue.getD {}).error.getD "Unknown error",
      (resp.decodeValue.getD {}).code, ?_⟩
    simp only [get]
    rw [if_neg h2, if_neg h401, if_neg h404, if_neg h429, if_neg h400]
  · intro h2 t
    simp only [get]
    rw [if_neg h2]
    split_ifs <;> simp
  · rintro h2 t ht
    simp [get, h2, ht]

/-- Claim C1 witness: the taxonomy theorem applied at concrete 401, 404,
500 and 200 responses. -/
theorem get_status_taxonomy_witness :
    get "/api/v1/filings" (SendOutcome.resp
      ({ status := 401, decodeSuccess := Except.error "unused" } : HttpResponse Nat)) =
      Except.error Error.Authentication ∧
    get "/api/v1/filings/xyz" (SendOutcome.resp
      ({ status := 404, decodeSuccess := Except.error "unused" } : HttpResponse Nat)) =
      Except.error (Error.NotFound "/api/v1/filings/xyz") ∧
    (∃ m c, get "/api/v1/filings" (SendOutcome.resp
      ({ status := 500, decodeSuccess := Except.error "unused" } : HttpResponse Nat)) =
      Except.error (Error.Api 500 m c)) ∧
    get "/api/v1/filings" (SendOutcome.resp
      ({ status := 200, decodeSuccess := Except.ok 7 } : HttpResponse Nat)) =
      Except.ok 7 := by
  refine ⟨?_, ?_, ?_, ?_⟩
  · exact (get_status_taxonomy _ _).1 rfl
  · exact (get_status_taxonomy _ _).2.1 rfl
  · exact (get_status_taxonomy "/api/v1/filings" _).2.2.2.2.1
      (by decide) (by decide) (by decide) (by decide) (by decide)
  · exact (get_status_taxonomy _ _).2.2.2.2.2.2 (by decide) 7 rfl

/-- Claim C2: under the two-page server sequence (page 1: one item,
hasMore true, nextCursor "cursor_page_2"; page 2: one item, hasMore
false, no cursor), the filings iterator yields exactly the two items in
page order, issues the second page request with its cursor equal to
"cursor_page_2", and then terminates (whatever extra fuel is supplied). -/
theorem iter_two_page_scenario :
    FilingsResource.iterStep twoPageServer {} =
      IterOut.more [filingPage1] { cursor := some "cursor_page_2" } ∧
    (∀ fuel : Nat, FilingsResource.iterRun twoPageServer {} (fuel + 2) =
      some [Except.ok filingPage1, Except.ok filingPage2]) ∧
    (∀ fuel : Nat, FilingsResource.iterTrace twoPageServer {} (fuel + 2) =
      [{}, { cursor := some "cursor_page_2" }]) :=
  ⟨rfl, fun _ => rfl, fun _ => rfl⟩

/-- Claim C3: for every page obtained during iteration, the iterator
stops fetching further pages, successfully, exactly when the page's
has_more is false (any next_cursor is then ignored) or has_more is true
but next_cursor is absent; it fetches another page precisely when
has_more is true and next_cursor is present, for both the filings
iterator and the company-search iterator. -/
theorem iter_stop_conditions :
    (∀ (listFn : ListFilingsParams → Except Error (PaginatedResponse Filing))
       (p : ListFilingsParams) (page : PaginatedResponse Filing),
       listFn p = Except.ok page →
       ((FilingsResource.iterStep listFn p = IterOut.done page.items ↔
           page.has_more = false ∨ page.next_cursor = none) ∧
        (∀ c, page.has_more = true → page.next_cursor = some c →
           FilingsResource.iterStep listFn p =
             IterOut.more page.items { p with cursor := some c }))) ∧
    (∀ (searchFn : SearchCompaniesParams →
          Except Error (PaginatedResponse CompanySearchResult))
       (p : SearchCompaniesParams) (page : PaginatedResponse CompanySearchResult),
       searchFn p = Except.ok page →
       ((CompaniesResource.iterSearchStep searchFn p = IterOut.done page.items ↔
           page.has_more = false ∨ page.next_cursor = none) ∧
        (∀ c, page.has_more = true → page.next_cursor = some c →
           CompaniesResource.iterSearchStep searchFn p =
             IterOut.more page.items { p with cursor := some c }))) := by
  constructor
  · intro listFn p page h
    constructor
    · constructor
      · intro hstep
        cases hm : page.has_more with
        | false => exact Or.inl rfl
        | true =>
          cases hc : page.next_cursor with
          | none => exact Or.inr rfl
          | some c =>
            simp [FilingsResource.iterStep, h, hm, hc] at hstep
      · rintro (hm | hc)
        · simp [FilingsResource.iterStep, h, hm]
        · cases hm : page.has_more <;>
            simp [FilingsResource.iterStep, h, hm, hc]
    · intro c hm hc
      simp [FilingsResource.iterStep, h, hm, hc]
  · intro searchFn p page h
    constructor
    · constructor
      · intro hstep
        cases hm : page.has_more with
        | false => exact Or.inl rfl
        | true =>
          cases hc : page.next_cursor with
          | none => exact Or.inr rfl
          | some c =>
            simp [CompaniesResource.iterSearchStep, h, hm, hc] at hstep
      · rintro (hm | hc)
        · simp [CompaniesResource.iterSearchStep, h, hm]
        · cases hm : page.has_more <;>
            simp [CompaniesResource.iterSearchStep, h, hm, hc]
    · intro c hm hc
      simp [CompaniesResource.iterSearchStep, h, hm, hc]

/-- Claim C3 witness: the stop-condition theorem applied to a final page
of the filings scenario and to a page whose has_more is false despite a
present cursor (the cursor is ignored). -/
theorem iter_stop_conditions_witness :
    FilingsResource.iterStep twoPageServer { cursor := some "cursor_page_2" } =
      IterOut.done [filingPage2] ∧
    CompaniesResource.iterSearchStep
      (fun _ => Except.ok { items := [], next_cursor := some "ignored",
                            has_more := false }) {} =
      IterOut.done [] := by
  constructor
  · exact ((iter_stop_conditions.1 twoPageServer
      { cursor := some "cursor_page_2" }
      { items := [filingPage2], next_cursor := none, has_more := false }
      rfl).1).mpr (Or.inl rfl)
  · exact ((iter_stop_conditions.2 _ {}
      { items := [], next_cursor := some "ignored", has_more := false }
      rfl).1).mpr (Or.inl rfl)

/-- Claim C4: whenever the underlying list call fails, the pagination
iterator produces that error as its next and final value and then ends:
the run emits exactly the one error, and the request trace shows no
further page request, for both iterators. -/
theorem iter_error_terminal :
    (∀ (listFn : ListFilingsParams → Except Error (PaginatedResponse Filing))
       (p : ListFilingsParams) (e : Error),
       listFn p = Except.error e →
       FilingsResource.iterStep listFn p = IterOut.err e ∧
       (∀ fuel, FilingsResource.iterRun listFn p (fuel + 1) =
          some [Except.error e]) ∧
       (∀ fuel, FilingsResource.iterTrace listFn p (fuel + 1) = [p])) ∧
    (∀ (searchFn : SearchCompaniesParams →
          Except Error (PaginatedResponse CompanySearchResult))
       (p : SearchCompaniesParams) (e : Error),
       searchFn p = Except.error e →
       CompaniesResource.iterSearchStep searchFn p = IterOut.err e ∧
       (∀ fuel, CompaniesResource.iterSearchRun searchFn p (fuel + 1) =
          some [Except.error e]) ∧
       (∀ fuel, CompaniesResource.iterSearchTrace searchFn p (fuel + 1) = [p])) := by
  constructor
  · intro listFn p e h
    refine ⟨by simp [FilingsResource.iterStep, h], ?_, ?_⟩
    · intro fuel
      simp [FilingsResource.iterRun, FilingsResource.iterStep, h]
    · intro fuel
      simp [FilingsResource.iterTrace, FilingsResource.iterStep, h]
  · intro searchFn p e h
    refine ⟨by simp [CompaniesResource.iterSearchStep, h], ?_, ?_⟩
    · intro fuel
      simp [CompaniesResource.iterSearchRun, CompaniesResource.iterSearchStep, h]
    · intro fuel
      simp [CompaniesResource.iterSearchTrace, CompaniesResource.iterSearchStep, h]

/-- Claim C4 witness: the error-termination theorem applied to servers
that always fail, with plenty of fuel left. -/
theorem iter_error_terminal_witness :
    FilingsResource.iterRun (fun _ => Except.error Error.Authentication) {} 5 =
      some [Except.error Error.Authentication] ∧
    CompaniesResource.iterSearchRun
      (fun _ => Except.error (Error.RateLimit none)) {} 3 =
      some [Except.error (Error.RateLimit none)] := by
  constructor
  · exact ((iter_error_terminal.1 (fun _ => Except.error Error.Authentication)
      {} Error.Authentication rfl).2.1) 4
  · exact ((iter_error_terminal.2 (fun _ => Except.error (Error.RateLimit none))
      {} (Error.RateLimit none) rfl).2.1) 2

/-- Claim C5 counterexample: on a concrete 2xx response whose body fails
to decode, `get` returns the Http (transport) error kind, not the Json
(serialization) kind: `response.json::<T>()` returns reqwest::Error, and
the `?` operator converts it via `From<reqwest::Error>` into Error::Http,
the same variant produced by connection and timeout failures. -/
theorem decode_failure_counterexample :
    get "/api/v1/filings" (SendOutcome.resp badDecodeResp) =
      Except.error (Error.Http "error decoding response body") ∧
    resultIsJsonError (get "/api/v1/filings" (SendOutcome.resp badDecodeResp)) = false := by
  exact ⟨rfl, rfl⟩

/-- Claim C5 (amended): for every 2xx response whose body fails to
decode, `get` returns an Http-kind error carrying the decode cause - the
same taxonomy kind produced by connection/timeout failures - never a
Json (serialization) error, so the two failure causes are not
distinguishable by error kind alone. -/
theorem decode_failure_yields_http {T : Type} (path : String)
    (resp : HttpResponse T) (cause : String) :
    (200 ≤ resp.status ∧ resp.status ≤ 299) →
    resp.decodeSuccess = Except.error cause →
    (get path (SendOutcome.resp resp) = Except.error (Error.Http cause) ∧
     (∀ c, get path (SendOutcome.resp resp) ≠ Except.error (Error.Json c)) ∧
     get path (SendOutcome.sendErr cause : SendOutcome T) =
       Except.error (Error.Http cause)) := by
  intro h2 hd
  refine ⟨by simp [get, h2, hd], ?_, rfl⟩
  intro c
  simp [get, h2, hd]

/-- Claim C5 witness: the amended theorem applied at the concrete
undecodable 200 response. -/
theorem decode_failure_yields_http_witness :
    get "/api/v1/filings" (SendOutcome.resp badDecodeResp) =
      Except.error (Error.Http "error decoding response body") :=
  (decode_failure_yields_http "/api/v1/filings" badDecodeResp
    "error decoding response body" (by decide) rfl).1

/-- Claim C6: for every failed call whose error-response body is absent
or fails to parse, the returned error still has the kind determined by
the status code alone, with the kind-specific fallback message ("Invalid
request" for Validation on 400, "Unknown error" for Api on other
non-2xx), and producing the error is a total operation. -/
theorem error_body_fallback {T : Type} (path : String) (resp : HttpResponse T) :
    resp.decodeValue = none →
    (resp.status = 400 →
      get path (SendOutcome.resp resp) =
        Except.error (Error.Validation "Invalid request")) ∧
    (¬(200 ≤ resp.status ∧ resp.status ≤ 299) →
      resp.status ≠ 400 → resp.status ≠ 401 → resp.status ≠ 404 → resp.status ≠ 429 →
      get path (SendOutcome.resp resp) =
        Except.error (Error.Api resp.status "Unknown error" none)) := by
  intro hv
  constructor
  · intro h; simp [get, h, hv]
  · intro h2 h400 h401 h404 h429
    simp only [get]
    rw [if_neg h2, if_neg h401, if_neg h404, if_neg h429, if_neg h400]
    simp [hv]

/-- Claim C6 witness: the fallback theorem applied at concrete 400 and
503 responses with unparseable bodies. -/
theorem error_body_fallback_witness :
    get "/api/v1/filings" (SendOutcome.resp
      ({ status := 400, decodeSuccess := Except.error "unused" } : HttpResponse Nat)) =
      Except.error (Error.Validation "Invalid request") ∧
    get "/api/v1/filings" (SendOutcome.resp
      ({ status := 503, decodeSuccess := Except.error "unused" } : HttpResponse Nat)) =
      Except.error (Error.Api 503 "Unknown error" none) := by
  constructor
  · exact (error_body_fallback _ _ rfl).1 rfl
  · exact (error_body_fallback "/api/v1/filings" _ rfl).2
      (by decide) (by decide) (by decide) (by decide) (by decide)

/-- Claim C7: for every 429 response, the RateLimit error's reset_at
equals the X-RateLimit-Reset header value parsed as a Unix timestamp
when the header is present and parseable, and is none when the header is
missing or unparseable. -/
theorem rate_limit_reset_header {T : Type} (path : String) (resp : HttpResponse T) :
    resp.status = 429 →
    ((∀ v n, headerGet resp.headers "X-RateLimit-Reset" = some v →
        parseU64 v = some n →
        get path (SendOutcome.resp resp) = Except.error (Error.RateLimit (some n))) ∧
     (headerGet resp.headers "X-RateLimit-Reset" = none →
        get path (SendOutcome.resp resp) = Except.error (Error.RateLimit none)) ∧
     (∀ v, headerGet resp.headers "X-RateLimit-Reset" = some v →
        parseU64 v = none →
        get path (SendOutcome.resp resp) = Except.error (Error.RateLimit none))) := by
  intro h
  refine ⟨?_, ?_, ?_⟩
  · intro v n hv hn; simp [get, h, hv, hn]
  · intro hv; simp [get, h, hv]
  · intro v hv hn; simp [get, h, hv, hn]

/-- Claim C7 witness: with X-RateLimit-Reset 1703520000 the reset
timestamp is 1703520000; with no header, or the unparseable value
"soon", it is absent. -/
theorem rate_limit_reset_header_witness :
    parseU64 "1703520000" = some 1703520000 ∧
    get "/api/v1/filings" (SendOutcome.resp
      ({ status := 429, headers := [("X-RateLimit-Reset", "1703520000")],
         decodeSuccess := Except.error "unused" } : HttpResponse Nat)) =
      Except.error (Error.RateLimit (some 1703520000)) ∧
    get "/api/v1/filings" (SendOutcome.resp
      ({ status := 429, decodeSuccess := Except.error "unused" } : HttpResponse Nat)) =
      Except.error (Error.RateLimit none) ∧
    get "/api/v1/filings" (SendOutcome.resp
      ({ status := 429, headers := [("X-RateLimit-Reset", "soon")],
         decodeSuccess := Except.error "unused" } : HttpResponse Nat)) =
      Except.error (Error.RateLimit none) := by
  refine ⟨by decide, ?_, ?_, ?_⟩
  · exact (rate_limit_reset_header _ _ rfl).1 "1703520000" 1703520000 (by decide) (by decide)
  · exact (rate_limit_reset_header _ _ rfl).2.1 rfl
  · exact (rate_limit_reset_header _ _ rfl).2.2 "soon" (by decide) (by decide)

/-- Claim C8: serializing a parameter object emits one key=value pair
per set field under its wire name and nothing at all for absent fields,
and the builders join multi-valued filters (form types, transaction
codes) into a single comma-separated string before serialization. -/
theorem params_query_serialization :
    (∀ (p : ListFilingsParams) (k v : String),
      (k, v) ∈ p.toQuery ↔
        ((k = "forms" ∧ p.forms = some v) ∨
         (k = "ticker" ∧ p.ticker = some v) ∨
         (k = "cik" ∧ p.cik.map toString = some v) ∨
         (k = "status" ∧ p.status.map FilingStatus.serialize = some v) ∨
         (k = "startDate" ∧ p.start_date = some v) ∨
         (k = "endDate" ∧ p.end_date = some v) ∨
         (k = "q" ∧ p.q = some v) ∨
         (k = "limit" ∧ p.limit.map toString = some v) ∨
         (k = "cursor" ∧ p.cursor = some v))) ∧
    (∀ (b : ListFilingsParamsBuilder) (fs : List String),
      ((b.forms fs).build).forms = some (String.intercalate "," fs)) ∧
    (∀ (b : ListInsiderParamsBuilder) (cs : List String),
      ((b.codes cs).build).codes = some (String.intercalate "," cs)) ∧
    ((ListFilingsParams.builder.forms ["10-K", "10-Q"]).build).forms = some "10-K,10-Q" := by
  refine ⟨?_, ?_, ?_, ?_⟩
  · intro p k v
    simp [ListFilingsParams.toQuery, mem_optEntry]
  · intro b fs; rfl
  · intro b cs; rfl
  · rfl

/-- Claim C8 witness: the serialization theorem applied to the params
built from ticker "AAPL": the ticker pair is emitted and no cik pair
exists. -/
theorem params_query_serialization_witness :
    ("ticker", "AAPL") ∈
      (ListFilingsParams.builder.ticker "AAPL").build.toQuery ∧
    ¬ ∃ v, ("cik", v) ∈ (ListFilingsParams.builder.ticker "AAPL").build.toQuery := by
  constructor
  · exact (params_query_serialization.1 _ "ticker" "AAPL").mpr
      (Or.inr (Or.inl ⟨rfl, rfl⟩))
  · rintro ⟨v, hv⟩
    have h := (params_query_serialization.1 _ "cik" v).mp hv
    simp [ListFilingsParams.builder, ListFilingsParamsBuilder.ticker,
      ListFilingsParamsBuilder.build] at h

/-- Claim C9: building a configuration fails with a Config error
whenever the API key was never set or was set to the empty string, and
succeeds with exactly the accumulated key, base URL and timeout when the
key is non-empty. -/
theorem config_build_api_key (b : ClientConfigBuilder) :
    ((b.api_key = none ∨ b.api_key = some "") →
      ∃ msg, b.build = Except.error (Error.Config msg)) ∧
    (∀ k, b.api_key = some k → k ≠ "" →
      b.build = Except.ok { api_key := k, base_url := b.base_url, timeout := b.timeout }) := by
  constructor
  · rintro (h | h) <;> simp [ClientConfigBuilder.build, h, String.isEmpty_iff]
  · intro k hk hne
    simp [ClientConfigBuilder.build, hk, String.isEmpty_iff, hne]

/-- Claim C9 witness: the empty key and the missing key fail with their
Config messages; the key "test_key" builds the expected configuration. -/
theorem config_build_api_key_witness :
    (ClientConfigBuilder.build { api_key := some "" } =
      Except.error (Error.Config "API key cannot be empty")) ∧
    (ClientConfigBuilder.build ({} : ClientConfigBuilder) =
      Except.error (Error.Config "API key is required")) ∧
    ((({} : ClientConfigBuilder).set_api_key "test_key").build =
      Except.ok { api_key := "test_key", base_url := none, timeout := none }) := by
  refine ⟨?_, ?_, ?_⟩
  · rfl
  · rfl
  · exact (config_build_api_key _).2 "test_key" rfl (by decide)

/-- Claim C10: every page request the pagination iterator issues after
the first uses a parameter object identical to its predecessor - and
hence to the caller's original - in every field except the cursor, which
holds the next_cursor of the immediately preceding page; the first
request is the caller's original object, for both iterators. -/
theorem iter_cursor_frame :
    (∀ (listFn : ListFilingsParams → Except Error (PaginatedResponse Filing))
       (p : ListFilingsParams) (fuel : Nat),
       (FilingsResource.iterTrace listFn p (fuel + 1)).head? = some p ∧
       List.Chain' (cursorStepFilings listFn)
         (FilingsResource.iterTrace listFn p fuel) ∧
       (∀ q ∈ FilingsResource.iterTrace listFn p fuel,
          sameExceptCursorFilings p q)) ∧
    (∀ (searchFn : SearchCompaniesParams →
          Except Error (PaginatedResponse CompanySearchResult))
       (p : SearchCompaniesParams) (fuel : Nat),
       (CompaniesResource.iterSearchTrace searchFn p (fuel + 1)).head? = some p ∧
       List.Chain' (cursorStepCompanies searchFn)
         (CompaniesResource.iterSearchTrace searchFn p fuel) ∧
       (∀ q ∈ CompaniesResource.iterSearchTrace searchFn p fuel,
          sameExceptCursorCompanies p q)) := by
  constructor
  · intro listFn p fuel
    exact ⟨rfl, iterTrace_chain listFn fuel p, iterTrace_frame listFn fuel p⟩
  · intro searchFn p fuel
    exact ⟨rfl, iterSearchTrace_chain searchFn fuel p,
      iterSearchTrace_frame searchFn fuel p⟩

/-- Claim C10 witness: in the two-page scenario the second request
agrees with the default starting params everywhere but the cursor, and
the two-element request trace is cursor-chained. -/
theorem iter_cursor_frame_witness :
    sameExceptCursorFilings {} { cursor := some "cursor_page_2" } ∧
    List.Chain' (cursorStepFilings twoPageServer)
      (FilingsResource.iterTrace twoPageServer {} 2) := by
  constructor
  · refine (iter_cursor_frame.1 twoPageServer {} 2).2.2
      { cursor := some "cursor_page_2" } ?_
    have ht : FilingsResource.iterTrace twoPageServer {} 2 =
        [{}, { cursor := some "cursor_page_2" }] := rfl
    rw [ht]
    simp
  · exact (iter_cursor_frame.1 twoPageServer {} 2).2.1

end EarningsFeed
